import Mathlib

/-!
Verification of the wirexfers IPizza banklink providers.

Shallow embedding of `src/wirexfers/providers/ipizza.py` and
`src/wirexfers/providers/hire.py`: the MAC string builders, the
payment-initiation request signing field set, and both `parse_response`
implementations.  RSA/base64 machinery and datetime parsing are external
collaborators and enter as function parameters (`verify`, `dtparse`);
clocks enter as an integer `now` in seconds, timestamps as integers.
-/

/-- Python exception kinds the embedded code can raise.  The constructor
`missingField` models the spec's `MissingFieldError`; the source code never
raises it, it is present so its absence can be stated. -/
inductive PyErr where
  | invalidResponse
  | keyError
  | typeError
  | attributeError
  | valueError
  | timeout
  | missingField
  deriving DecidableEq

/-- An incoming form, as Python dict lookup `form.get(key)`. -/
abbrev Form := String → Option String

/-- Last-wins association lookup: the semantics of Python `dict(pairs)`
applied to a pair list (later duplicates override earlier ones). -/
def lookupLast : List (String × String) → String → Option String
  | [], _ => none
  | p :: ps, k =>
    match lookupLast ps k with
    | some v => some v
    | none => if p.1 = k then some p.2 else none

/-- Build a `Form` from a literal pair list, with dict semantics. -/
def mkForm (l : List (String × String)) : Form := fun k => lookupLast l k

/-- Decimal digit characters of `n`, most significant first (Python `%d`). -/
def decChars (n : Nat) : List Char := Nat.toDigits 10 n

/-- Python `%03d`: the decimal digits zero-padded on the left to width at
least three (wider numbers keep all their digits). -/
def pad3 (n : Nat) : List Char :=
  List.replicate (3 - (decChars n).length) '0' ++ decChars n

/-- One encoded field of the MAC string: length prefix immediately followed
by the value, `'%03d%s'` in the source. -/
def macPiece (v : List Char) : List Char := pad3 v.length ++ v

/-- Embedding of `IPizzaProviderBase._build_mac` (also `EELHVProvider._build_mac`):
character-count length prefixes over the unicode value, fields in the given
order, concatenated with no separator.  A missing field reaches
`len(None)`, which raises `TypeError`. -/
def buildMac : List String → Form → Except PyErr (List Char)
  | [], _ => .ok []
  | k :: ks, data =>
    match data ("VK_" ++ k) with
    | none => .error .typeError
    | some v => (buildMac ks data).map (fun rest => macPiece v.data ++ rest)

/-- ISO-8859-1 encoding of a value under `errors='ignore'`: characters above
U+00FF are silently dropped, every kept character is exactly one byte. -/
def latin1Bytes (v : String) : List Char := v.data.filter (fun c => c.toNat ≤ 255)

/-- Embedding of `EEDanskeProvider._build_mac`: byte-count length prefixes over the
latin-1-encoded (`errors='ignore'`) value.  A missing field reaches
`None.encode`, which raises `AttributeError`. -/
def buildMacDanske : List String → Form → Except PyErr (List Char)
  | [], _ => .ok []
  | k :: ks, data =>
    match data ("VK_" ++ k) with
    | none => .error .attributeError
    | some v => (buildMacDanske ks data).map (fun rest => macPiece (latin1Bytes v) ++ rest)

/-- Field schema of the successful-payment response, service code 1111. -/
def fields1111 : List String :=
  ["SERVICE", "VERSION", "SND_ID", "REC_ID", "STAMP", "T_NO", "AMOUNT", "CURR",
   "REC_ACC", "REC_NAME", "SND_ACC", "SND_NAME", "REF", "MSG", "T_DATETIME"]

/-- Field schema of the unsuccessful-payment response, service code 1911. -/
def fields1911 : List String :=
  ["SERVICE", "VERSION", "SND_ID", "REC_ID", "STAMP", "REF", "MSG"]

/-- The ten fields copied into the outcome mapping on success. -/
def successKeys : List String :=
  ["T_NO", "AMOUNT", "CURR", "REC_ACC", "REC_NAME", "SND_ACC", "SND_NAME",
   "REF", "MSG", "T_DATETIME"]

/-- Outcome value returned by `parse_response`: the saved data mapping (a
Python dict whose values may be None) and the success flag. -/
structure PaymentResponse where
  data : List (String × Option String)
  success : Bool
  deriving DecidableEq

/-- The success-path data mapping: `data[item] = f(item)` over `successKeys`. -/
def successData (form : Form) : List (String × Option String) :=
  successKeys.map (fun k => (k, form ("VK_" ++ k)))

/-- Freshness test of `IPizzaProviderBase.parse_response`:
`(now - td) < d < (now + td)` with a 300-second delta, strict on both sides. -/
def ipizzaFresh (now d : Int) : Bool :=
  decide (now - 300 < d) && decide (d < now + 300)

/-- Embedding of `IPizzaProviderBase.parse_response`.  Here `verify` abstracts base64-decoding
the supplied `VK_MAC` value and RSA-verifying it against the recomputed MAC
bytes; `dtparse` abstracts `dateutil.parser.parse` plus UTC normalization of
`VK_T_DATETIME` (`none` models a parse failure, `ValueError`); `now` is the
current UTC clock in seconds.  The service-code guard reproduces the
source's `if not resp and resp not in fields`, which only fires on a falsy
code; a truthy unrecognized code reaches `fields[resp]` and raises
`KeyError`. -/
def parse_response (verify : List Char → String → Bool) (dtparse : String → Option Int)
    (now : Int) (form : Form) : Except PyErr PaymentResponse :=
  match form ("VK_SERVICE") with
  | none => .error .invalidResponse
  | some r =>
    if r = "" then .error .invalidResponse
    else if r = "1111" ∨ r = "1911" then
      match buildMac (if r = "1111" then fields1111 else fields1911) form with
      | .error e => .error e
      | .ok m =>
        match form ("VK_MAC") with
        | none => .error .typeError
        | some mac =>
          if verify m mac then
            match form ("VK_T_DATETIME") with
            | none => .error .typeError
            | some s =>
              match dtparse s with
              | none => .error .valueError
              | some d =>
                if ipizzaFresh now d then
                  .ok ⟨if r = "1111" then successData form else [], r == "1111"⟩
                else .error .timeout
          else .error .invalidResponse
    else .error .keyError

/-- Field names covered by the request MAC in
`IPizzaProviderBase._sign_request` (the 1012 request). -/
def requestMacFields : List String :=
  ["SERVICE", "VERSION", "SND_ID", "STAMP", "AMOUNT", "CURR", "REF", "MSG",
   "RETURN", "CANCEL", "DATETIME"]

/-- Field list assembled by `IPizzaProviderBase._sign_request` before the
MAC is computed: the nine base fields, then the provider's extra fields,
then the return and cancel URLs. -/
def signRequestFields (user stamp amount dt refnum msg : String)
    (extra : List (String × String)) (ret cancel : String) :
    List (String × String) :=
  [("VK_SERVICE", "1012"), ("VK_VERSION", "008"), ("VK_SND_ID", user),
   ("VK_STAMP", stamp), ("VK_AMOUNT", amount), ("VK_CURR", "EUR"),
   ("VK_DATETIME", dt), ("VK_REF", refnum), ("VK_MSG", msg)]
  ++ extra ++ [("VK_RETURN", ret), ("VK_CANCEL", cancel)]

/-- The MAC byte string signed by `IPizzaProviderBase._sign_request`:
`_build_mac` over `requestMacFields` applied to `dict(fields)`. -/
def signRequestMac (user stamp amount dt refnum msg : String)
    (extra : List (String × String)) (ret cancel : String) :
    Except PyErr (List Char) :=
  buildMac requestMacFields
    (mkForm (signRequestFields user stamp amount dt refnum msg extra ret cancel))

/-- Service codes recognized by the document-exchange provider. -/
def hireCodes : List String := ["5111", "5112", "5113"]

/-- Python `s.split('+')[0]`. -/
def splitPlusHead (s : String) : String :=
  match s.splitOn ("+") with
  | [] => ""
  | x :: _ => x

/-- Embedding of `EELHVProvider.parse_response` (hire.py): no signature check at all; the
freshness test `datetime.now() - timedelta(seconds=300) > t` is one-sided.
A missing `VK_DATETIME` reaches `None.split`, an `AttributeError`; `dtparse`
abstracts `datetime.strptime` (`none` models `ValueError`). -/
def hire_parse_response (dtparse : String → Option Int) (now : Int) (form : Form) :
    Except PyErr PaymentResponse :=
  match form ("VK_SERVICE") with
  | none => .error .invalidResponse
  | some r =>
    if r = "" then .error .invalidResponse
    else
      match form ("VK_DATETIME") with
      | none => .error .attributeError
      | some s =>
        match dtparse (splitPlusHead s) with
        | none => .error .valueError
        | some t =>
          if now - 300 > t then .error .invalidResponse
          else
            .ok ⟨if r ∈ hireCodes then [("data", form ("VK_DATA")), ("code", some r)] else [],
                 decide (r ∈ hireCodes)⟩

/-- Numeric value of a decimal digit character. -/
def digitVal (c : Char) : Option Nat :=
  if '0' ≤ c ∧ c ≤ '9' then some (c.toNat - 48) else none

/-- Modelled from the spec: re-parse a MAC string for `k` fields by reading
each field's three-digit length prefix and consuming that many units. -/
def parseMacPieces : Nat → List Char → Option (List (List Char))
  | 0, l => if l = [] then some [] else none
  | k + 1, c2 :: c1 :: c0 :: rest =>
    match digitVal c2, digitVal c1, digitVal c0 with
    | some a, some b, some c =>
      if 100 * a + 10 * b + c ≤ rest.length then
        (parseMacPieces k (rest.drop (100 * a + 10 * b + c))).map
          (fun vs => rest.take (100 * a + 10 * b + c) :: vs)
      else none
    | _, _, _ => none
  | _ + 1, _ => none

/-- Values of the listed fields, when every one of them is present. -/
def lookupAll : List String → Form → Option (List String)
  | [], _ => some []
  | k :: ks, data =>
    match data ("VK_" ++ k), lookupAll ks data with
    | some v, some vs => some (v :: vs)
    | _, _ => none

/-- Concatenation of the length-prefixed pieces of a value list: the shape
of every `_build_mac` output. -/
def macConcat (vs : List (List Char)) : List Char := (vs.map macPiece).flatten

/-- A complete successful-payment (1111) callback form, used in examples. -/
def exForm1111 : Form := mkForm
  [("VK_SERVICE", "1111"), ("VK_VERSION", "008"), ("VK_SND_ID", "snd"),
   ("VK_REC_ID", "rec"), ("VK_STAMP", "7"), ("VK_T_NO", "42"),
   ("VK_AMOUNT", "10.00"), ("VK_CURR", "EUR"), ("VK_REC_ACC", "123"),
   ("VK_REC_NAME", "Shop"), ("VK_SND_ACC", "456"), ("VK_SND_NAME", "Payer"),
   ("VK_REF", "ref1"), ("VK_MSG", "thanks"), ("VK_T_DATETIME", "dt"),
   ("VK_MAC", "sig")]

/-- A complete unsuccessful-payment (1911) callback form, used in examples.
`VK_T_DATETIME` is present because `parse_response` reads it even though the
1911 schema does not list it. -/
def exForm1911 : Form := mkForm
  [("VK_SERVICE", "1911"), ("VK_VERSION", "008"), ("VK_SND_ID", "snd"),
   ("VK_REC_ID", "rec"), ("VK_STAMP", "7"), ("VK_REF", "ref1"),
   ("VK_MSG", "no"), ("VK_T_DATETIME", "dt"), ("VK_MAC", "sig")]

/-- A document-exchange (5111) callback form, used in examples. -/
def exFormHire : Form := mkForm
  [("VK_SERVICE", "5111"), ("VK_DATETIME", "2015-01-01T00:00:00+02:00"),
   ("VK_DATA", "xml"), ("VK_MAC", "sigA")]

/-- The same document-exchange form with a different `VK_MAC` value. -/
def exFormHireMac2 : Form := mkForm
  [("VK_SERVICE", "5111"), ("VK_DATETIME", "2015-01-01T00:00:00+02:00"),
   ("VK_DATA", "xml"), ("VK_MAC", "sigB")]

/-- A thousand-character value, longer than a three-digit length prefix
can describe. -/
def bigVal : List Char := List.replicate 1000 'a'

instance {ε α : Type} [DecidableEq ε] [DecidableEq α] : DecidableEq (Except ε α) :=
  fun x y =>
    match x, y with
    | .error a, .error b =>
      if h : a = b then isTrue (by rw [h])
      else isFalse (fun hc => h (Except.error.inj hc))
    | .error _, .ok _ => isFalse (fun hc => Except.noConfusion hc)
    | .ok _, .error _ => isFalse (fun hc => Except.noConfusion hc)
    | .ok a, .ok b =>
      if h : a = b then isTrue (by rw [h])
      else isFalse (fun hc => h (Except.ok.inj hc))

/-! ### Helper lemmas about the MAC builders -/

theorem buildMac_error_of_missing (fields : List String) (data : Form)
    (h : ∃ k ∈ fields, data ("VK_" ++ k) = none) :
    buildMac fields data = .error .typeError := by
  induction fields with
  | nil => rcases h with ⟨k, hk, _⟩; cases hk
  | cons k ks ih =>
    rcases h with ⟨j, hj, hnone⟩
    rcases List.mem_cons.mp hj with rfl | hj'
    · simp [buildMac, hnone]
    · cases hdk : data ("VK_" ++ k) with
      | none => simp [buildMac, hdk]
      | some v => simp [buildMac, hdk, ih ⟨j, hj', hnone⟩, Except.map]

theorem buildMac_ok_present {fields : List String} {data : Form} {m : List Char}
    (h : buildMac fields data = .ok m) :
    ∀ k ∈ fields, (data ("VK_" ++ k)).isSome := by
  induction fields generalizing m with
  | nil => intro j hj; cases hj
  | cons k ks ih =>
    intro j hj
    cases hdk : data ("VK_" ++ k) with
    | none => simp [buildMac, hdk] at h
    | some v =>
      rcases List.mem_cons.mp hj with rfl | hj'
      · simp [hdk]
      · cases hks : buildMac ks data with
        | error e => simp [buildMac, hdk, hks, Except.map] at h
        | ok m' => exact ih hks j hj'

theorem buildMac_congr {fields : List String} {d1 d2 : Form}
    (h : ∀ k ∈ fields, d1 ("VK_" ++ k) = d2 ("VK_" ++ k)) :
    buildMac fields d1 = buildMac fields d2 := by
  induction fields with
  | nil => rfl
  | cons k ks ih =>
    have hk := h k (by simp)
    simp only [buildMac, hk, ih (fun j hj => h j (by simp [hj]))]

/-! ### C1 -/

/-- C1: the service-code guard `if not resp and resp not in fields` only
fires on a falsy code, so a truthy unrecognized code reaches `fields[resp]`
and raises `KeyError`, not `InvalidResponseError`. -/
theorem ipizza_unrecognized_code_keyError :
    parse_response (fun _ _ => true) (fun _ => some 0) 0
        (mkForm [("VK_SERVICE", "9999")]) = .error .keyError ∧
      PyErr.keyError ≠ PyErr.invalidResponse := by
  exact ⟨rfl, by decide⟩

/-! ### C6 -/

/-- C6 counterexample: building a MAC over a field list with an absent field
fails with a `TypeError` (`len(None)`), not the spec's `MissingFieldError`. -/
theorem missing_field_not_missingFieldError :
    buildMac ["SERVICE"] (mkForm []) = .error .typeError ∧
      Except.error (α := List Char) PyErr.typeError ≠ .error .missingField := by
  exact ⟨rfl, by decide⟩

/-- C6 (amended): for every list of field names and every field-value map in
which some listed name has no value, `_build_mac` fails with a `TypeError`
(from `len(None)`), never with `MissingFieldError` and never with a silently
wrong MAC string. -/
theorem missing_field_raises_typeError (fields : List String) (data : Form)
    (h : ∃ k ∈ fields, data ("VK_" ++ k) = none) :
    buildMac fields data = .error .typeError ∧
      PyErr.typeError ≠ PyErr.missingField :=
  ⟨buildMac_error_of_missing fields data h, by decide⟩

/-- C6 witness: the concrete one-field list with an empty map. -/
theorem missing_field_raises_typeError_witness :
    buildMac ["SERVICE"] (mkForm []) = .error .typeError ∧
      PyErr.typeError ≠ PyErr.missingField :=
  missing_field_raises_typeError ["SERVICE"] (mkForm [])
    ⟨"SERVICE", by simp, rfl⟩

/-! ### C10 -/

/-- C10: the ISO-8859-1 byte-length variant drops characters outside
ISO-8859-1 before length computation and emission, so any two field-value
maps that agree after dropping such characters produce identical MAC
output. -/
theorem danske_mac_ignores_nonLatin1 (fields : List String) (d1 d2 : Form)
    (h : ∀ k, (d1 k).map latin1Bytes = (d2 k).map latin1Bytes) :
    buildMacDanske fields d1 = buildMacDanske fields d2 := by
  induction fields with
  | nil => rfl
  | cons k ks ih =>
    have hk := h ("VK_" ++ k)
    cases h1 : d1 ("VK_" ++ k) with
    | none =>
      rw [h1] at hk
      cases h2 : d2 ("VK_" ++ k) with
      | none => simp only [buildMacDanske, h1, h2, ih]
      | some w => rw [h2] at hk; simp at hk
    | some v =>
      rw [h1] at hk
      cases h2 : d2 ("VK_" ++ k) with
      | none => rw [h2] at hk; simp at hk
      | some w =>
        rw [h2] at hk
        simp at hk
        simp only [buildMacDanske, h1, h2, macPiece, hk, ih]

/-- C10 witness: inserting '€' (not ISO-8859-1-representable) into a value
leaves the Danske MAC unchanged, so two distinct field maps share a MAC. -/
theorem danske_mac_ignores_nonLatin1_witness :
    buildMacDanske ["MSG"] (mkForm [("VK_MSG", "€uro")]) =
      buildMacDanske ["MSG"] (mkForm [("VK_MSG", "uro")]) :=
  danske_mac_ignores_nonLatin1 ["MSG"] (mkForm [("VK_MSG", "€uro")])
    (mkForm [("VK_MSG", "uro")]) (fun k => by
      by_cases h : "VK_MSG" = k
      · subst h; decide
      · simp [mkForm, lookupLast, h])

/-! ### C8 -/

/-- C8: the document-exchange `parse_response` performs no signature
verification: two forms that differ only in the `VK_MAC` field produce the
same result. -/
theorem hire_parse_ignores_mac (dtparse : String → Option Int) (now : Int)
    (f1 f2 : Form) (h : ∀ k, k ≠ "VK_MAC" → f1 k = f2 k) :
    hire_parse_response dtparse now f1 = hire_parse_response dtparse now f2 := by
  have h1 := h ("VK_SERVICE") (by decide)
  have h2 := h ("VK_DATETIME") (by decide)
  have h3 := h ("VK_DATA") (by decide)
  unfold hire_parse_response
  rw [h1, h2, h3]

/-- C8 witness: two concrete 5111 forms differing only in `VK_MAC`. -/
theorem hire_parse_ignores_mac_witness :
    hire_parse_response (fun _ => some 0) 0 exFormHire =
      hire_parse_response (fun _ => some 0) 0 exFormHireMac2 :=
  hire_parse_ignores_mac (fun _ => some 0) 0 exFormHire exFormHireMac2
    (fun k hk => by
      have hne : ¬ ("VK_MAC" = k) := fun e => hk e.symm
      simp [exFormHire, exFormHireMac2, mkForm, lookupLast, hne])

/-! ### C9 -/

/-- C9: the document-exchange freshness check is one-sided: a timestamp
strictly older than now - 300 seconds is rejected with
`InvalidResponseError`, and every timestamp at or after now - 300 seconds,
including arbitrarily far future ones, is accepted. -/
theorem hire_freshness_one_sided (dtparse : String → Option Int) (now : Int)
    (form : Form) (r s : String) (t : Int)
    (hserv : form ("VK_SERVICE") = some r) (hr : r ≠ "")
    (hdt : form ("VK_DATETIME") = some s)
    (hparse : dtparse (splitPlusHead s) = some t) :
    (t < now - 300 → hire_parse_response dtparse now form = .error .invalidResponse) ∧
    (now - 300 ≤ t → hire_parse_response dtparse now form =
      .ok ⟨if r ∈ hireCodes then [("data", form ("VK_DATA")), ("code", some r)] else [],
           decide (r ∈ hireCodes)⟩) := by
  simp only [hire_parse_response, hserv, hdt, hparse]
  rw [if_neg hr]
  constructor
  · intro hlt
    rw [if_pos (show now - 300 > t by omega)]
  · intro hge
    rw [if_neg (show ¬ now - 300 > t by omega)]

/-- C9 witness: a timestamp one billion seconds in the future of `now = 0`
is accepted by the document-exchange check. -/
theorem hire_freshness_one_sided_witness :
    hire_parse_response (fun _ => some 1000000000) 0 exFormHire =
      .ok ⟨[("data", exFormHire ("VK_DATA")), ("code", some ("5111"))], true⟩ := by
  have h := (hire_freshness_one_sided (fun _ => some 1000000000) 0 exFormHire
      ("5111") ("2015-01-01T00:00:00+02:00") 1000000000 rfl (by decide) rfl rfl).2
      (by omega)
  rw [h]
  decide

/-! ### C4 -/

/-- C4 counterexample: with `now = 1000`, a callback timestamp exactly at
`now - 300` is rejected, not accepted as fresh. -/
theorem freshness_boundary_minus300_rejected :
    parse_response (fun _ _ => true) (fun _ => some 700) 1000 exForm1111 =
      .error .timeout := by
  rfl

/-- C4 (amended): the payment-initiation freshness window is exclusive on
both sides: acceptance is exactly `now - 300 < d` and `d < now + 300`;
timestamps exactly at `now - 300`, at `now - 301`, and at `now + 300` are
all rejected, while one exactly at `now` is fresh. -/
theorem ipizza_freshness_window_exclusive (now d : Int) :
    (parse_response (fun _ _ => true) (fun _ => some d) now exForm1111 =
      if ipizzaFresh now d then .ok ⟨successData exForm1111, true⟩
      else .error .timeout) ∧
    ipizzaFresh now (now - 300) = false ∧ ipizzaFresh now (now - 301) = false ∧
    ipizzaFresh now (now + 300) = false ∧ ipizzaFresh now now = true := by
  refine ⟨rfl, ?_, ?_, ?_, ?_⟩ <;> simp [ipizzaFresh]

/-! ### C2 -/

theorem lookupLast_append_notin (extra b : List (String × String)) (k : String)
    (h : ∀ p ∈ extra, p.1 ≠ k) :
    lookupLast (extra ++ b) k = lookupLast b k := by
  induction extra with
  | nil => rfl
  | cons q qs ih =>
    have hq : q.1 ≠ k := h q (by simp)
    have ih' := ih (fun p hp => h p (by simp [hp]))
    show (match lookupLast (qs ++ b) k with
      | some v => some v
      | none => if q.1 = k then some q.2 else none) = lookupLast b k
    rw [ih']
    cases hb : lookupLast b k with
    | none => simp [hq]
    | some v => rfl

theorem lookupLast_middle (a extra b : List (String × String)) (k : String)
    (h : ∀ p ∈ extra, p.1 ≠ k) :
    lookupLast (a ++ extra ++ b) k = lookupLast (a ++ b) k := by
  induction a with
  | nil => simpa using lookupLast_append_notin extra b k h
  | cons q qs ih =>
    show (match lookupLast (qs ++ extra ++ b) k with
      | some v => some v
      | none => if q.1 = k then some q.2 else none) =
      (match lookupLast (qs ++ b) k with
      | some v => some v
      | none => if q.1 = k then some q.2 else none)
    rw [ih]

/-- C2 counterexample: two signing calls identical except for the return
URL produce different MAC strings, so `VK_RETURN` is not excluded from the
MAC. -/
theorem request_mac_depends_on_return_url :
    signRequestMac ("u") ("1") ("10.00") ("d") ("r") ("m") [] ("urlA") ("c") ≠
      signRequestMac ("u") ("1") ("10.00") ("d") ("r") ("m") [] ("urlB") ("c") := by
  decide

/-- C2 (amended): the request MAC of `_sign_request` is computed over the
eleven-field subset SERVICE, VERSION, SND_ID, STAMP, AMOUNT, CURR, REF,
MSG, RETURN, CANCEL, DATETIME: it excludes the extra/charset fields — the
signed byte string does not depend on them — but it does include the
return-URL fields `VK_RETURN` and `VK_CANCEL`. -/
theorem request_mac_independent_of_extra_fields
    (user stamp amount dt refnum msg ret cancel : String)
    (extra1 extra2 : List (String × String))
    (h1 : ∀ p ∈ extra1, ∀ k ∈ requestMacFields, p.1 ≠ "VK_" ++ k)
    (h2 : ∀ p ∈ extra2, ∀ k ∈ requestMacFields, p.1 ≠ "VK_" ++ k) :
    signRequestMac user stamp amount dt refnum msg extra1 ret cancel =
      signRequestMac user stamp amount dt refnum msg extra2 ret cancel := by
  unfold signRequestMac signRequestFields
  apply buildMac_congr
  intro k hk
  show lookupLast _ ("VK_" ++ k) = lookupLast _ ("VK_" ++ k)
  rw [lookupLast_middle _ _ _ _ (fun p hp => h1 p hp k hk),
      lookupLast_middle _ _ _ _ (fun p hp => h2 p hp k hk)]

/-- C2 witness: a charset extra field does not change the request MAC. -/
theorem request_mac_independent_of_extra_fields_witness :
    signRequestMac ("u") ("1") ("10.00") ("d") ("r") ("m")
        [("VK_CHARSET", "UTF-8")] ("urlA") ("c") =
      signRequestMac ("u") ("1") ("10.00") ("d") ("r") ("m") [] ("urlA") ("c") :=
  request_mac_independent_of_extra_fields ("u") ("1") ("10.00") ("d") ("r") ("m")
    ("urlA") ("c") [("VK_CHARSET", "UTF-8")] [] (by decide) (by decide)

/-! ### C3 -/

/-- C3 counterexample: a callback whose signature verifies but whose
timestamp is stale fails with the Timeout exception, not with
`InvalidResponseError`. -/
theorem stale_timestamp_timeout_not_invalidResponse :
    parse_response (fun _ _ => true) (fun _ => some 100) 1000 exForm1111 =
        .error .timeout ∧
      PyErr.timeout ≠ PyErr.invalidResponse := by
  exact ⟨rfl, by decide⟩

/-- C3 (amended): in the payment-initiation variant a stale or
future-skewed timestamp makes `parse_response` raise the Timeout exception
(a different exception kind from `InvalidResponseError`), and only when
signature verification has already succeeded: with a failing signature
`InvalidResponseError` is raised first and the timestamp is never
examined. -/
theorem ipizza_stale_rejection_after_signature
    (verify : List Char → String → Bool) (dtparse : String → Option Int)
    (now : Int) (form : Form) (r s mac : String) (m : List Char) (d : Int)
    (hserv : form ("VK_SERVICE") = some r) (hr : r = "1111" ∨ r = "1911")
    (hmac : buildMac (if r = "1111" then fields1111 else fields1911) form = .ok m)
    (hmacf : form ("VK_MAC") = some mac)
    (hdt : form ("VK_T_DATETIME") = some s) (hd : dtparse s = some d)
    (hstale : d ≤ now - 300 ∨ now + 300 ≤ d) :
    (verify m mac = true →
      parse_response verify dtparse now form = .error .timeout) ∧
    (verify m mac = false →
      parse_response verify dtparse now form = .error .invalidResponse) := by
  have hfresh : ipizzaFresh now d = false := by
    simp only [ipizzaFresh, Bool.and_eq_false_iff, decide_eq_false_iff_not]
    omega
  rcases hr with rfl | rfl
  · rw [if_pos rfl] at hmac
    constructor <;> intro hv <;>
      simp [parse_response, hserv, hmac, hmacf, hv, hdt, hd, hfresh]
  · rw [if_neg (by decide)] at hmac
    constructor <;> intro hv <;>
      simp [parse_response, hserv, hmac, hmacf, hv, hdt, hd, hfresh]

/-- C3 witness: the concrete stale valid-signature callback. -/
theorem ipizza_stale_rejection_after_signature_witness :
    parse_response (fun _ _ => true) (fun _ => some 100) 1000 exForm1111 =
      .error .timeout := by
  exact (ipizza_stale_rejection_after_signature (fun _ _ => true)
    (fun _ => some 100) 1000 exForm1111 ("1111") ("dt") ("sig") _ 100
    rfl (Or.inl rfl) rfl rfl rfl rfl (by omega)).1 rfl

/-! ### C7 -/

theorem successKeys_subset : ∀ k ∈ successKeys, k ∈ fields1111 := by decide

/-- C7 counterexample: a valid 1911 callback (signature and freshness both
pass) yields an empty data mapping, with no reference or message entries. -/
theorem failed_payment_mapping_empty :
    parse_response (fun _ _ => true) (fun _ => some 0) 0 exForm1911 =
      .ok ⟨[], false⟩ := by
  rfl

/-- C7 (amended): for every form that passes signature and freshness
checks, service code 1111 yields `success = true` with all ten success
fields populated in the mapping, and service code 1911 yields
`success = false` with an empty mapping (the source sets `data = {}` on
failure, populating nothing). -/
theorem parse_response_schemas
    (verify : List Char → String → Bool) (dtparse : String → Option Int)
    (now : Int) (form : Form) (mac s : String) (d : Int)
    (hmacf : form ("VK_MAC") = some mac)
    (hdt : form ("VK_T_DATETIME") = some s) (hd : dtparse s = some d)
    (hfresh : ipizzaFresh now d = true) :
    (∀ m, form ("VK_SERVICE") = some ("1111") →
      buildMac fields1111 form = .ok m → verify m mac = true →
      parse_response verify dtparse now form = .ok ⟨successData form, true⟩ ∧
        ∀ k ∈ successKeys, (form ("VK_" ++ k)).isSome = true) ∧
    (∀ m, form ("VK_SERVICE") = some ("1911") →
      buildMac fields1911 form = .ok m → verify m mac = true →
      parse_response verify dtparse now form = .ok ⟨[], false⟩) := by
  constructor
  · intro m hserv hmac hv
    refine ⟨?_, fun k hk => buildMac_ok_present hmac k (successKeys_subset k hk)⟩
    simp [parse_response, hserv, hmac, hmacf, hv, hdt, hd, hfresh]
  · intro m hserv hmac hv
    simp [parse_response, hserv, hmac, hmacf, hv, hdt, hd, hfresh]

/-- C7 witness: the concrete complete 1111 callback. -/
theorem parse_response_schemas_witness :
    parse_response (fun _ _ => true) (fun _ => some 0) 0 exForm1111 =
        .ok ⟨successData exForm1111, true⟩ ∧
      ∀ k ∈ successKeys, (exForm1111 ("VK_" ++ k)).isSome = true :=
  (parse_response_schemas (fun _ _ => true) (fun _ => some 0) 0 exForm1111
    ("sig") ("dt") 0 rfl rfl rfl (by decide)).1 _ rfl rfl rfl

/-! ### C5 -/

set_option maxRecDepth 100000 in
theorem pad3_eq : ∀ n, n < 1000 →
    pad3 n = [Char.ofNat (48 + n / 100), Char.ofNat (48 + n / 10 % 10),
      Char.ofNat (48 + n % 10)] := by decide

theorem digitVal_digit : ∀ m, m < 10 →
    digitVal (Char.ofNat (48 + m)) = some m := by decide

theorem parseMacPieces_cons (k : Nat) (w rest : List Char) (hw : w.length ≤ 999) :
    parseMacPieces (k + 1) (macPiece w ++ rest) =
      (parseMacPieces k rest).map (fun vs => w :: vs) := by
  have h3 := pad3_eq w.length (by omega)
  have e1 := digitVal_digit (w.length / 100) (by omega)
  have e2 := digitVal_digit (w.length / 10 % 10) (by omega)
  have e3 := digitVal_digit (w.length % 10) (by omega)
  have hlist : macPiece w ++ rest =
      Char.ofNat (48 + w.length / 100) :: Char.ofNat (48 + w.length / 10 % 10) ::
        Char.ofNat (48 + w.length % 10) :: (w ++ rest) := by
    simp [macPiece, h3]
  rw [hlist]
  simp only [parseMacPieces, e1, e2, e3]
  have hn : 100 * (w.length / 100) + 10 * (w.length / 10 % 10) + w.length % 10 =
      w.length := by omega
  rw [hn, if_pos (by rw [List.length_append]; omega), List.take_left, List.drop_left]

theorem lookupAll_length {fields : List String} {data : Form} {vals : List String}
    (h : lookupAll fields data = some vals) : vals.length = fields.length := by
  induction fields generalizing vals with
  | nil => simp [lookupAll] at h; subst h; rfl
  | cons k ks ih =>
    cases hk : data ("VK_" ++ k) with
    | none => simp [lookupAll, hk] at h
    | some v =>
      cases hks : lookupAll ks data with
      | none => simp [lookupAll, hk, hks] at h
      | some vs =>
        simp [lookupAll, hk, hks] at h
        subst h
        simp [ih hks]

theorem buildMac_of_lookupAll {fields : List String} {data : Form} {vals : List String}
    (h : lookupAll fields data = some vals) :
    buildMac fields data = .ok (macConcat (vals.map String.data)) := by
  induction fields generalizing vals with
  | nil => simp [lookupAll] at h; subst h; rfl
  | cons k ks ih =>
    cases hk : data ("VK_" ++ k) with
    | none => simp [lookupAll, hk] at h
    | some v =>
      cases hks : lookupAll ks data with
      | none => simp [lookupAll, hk, hks] at h
      | some vs =>
        simp [lookupAll, hk, hks] at h
        subst h
        simp [buildMac, hk, ih hks, macConcat, Except.map]

theorem buildMacDanske_of_lookupAll {fields : List String} {data : Form}
    {vals : List String} (h : lookupAll fields data = some vals) :
    buildMacDanske fields data = .ok (macConcat (vals.map latin1Bytes)) := by
  induction fields generalizing vals with
  | nil => simp [lookupAll] at h; subst h; rfl
  | cons k ks ih =>
    cases hk : data ("VK_" ++ k) with
    | none => simp [lookupAll, hk] at h
    | some v =>
      cases hks : lookupAll ks data with
      | none => simp [lookupAll, hk, hks] at h
      | some vs =>
        simp [lookupAll, hk, hks] at h
        subst h
        simp [buildMacDanske, hk, ih hks, macConcat, Except.map]

theorem parseMacPieces_macConcat (n : Nat) (vs : List (List Char))
    (hn : n = vs.length) (h : ∀ v ∈ vs, v.length ≤ 999) :
    parseMacPieces n (macConcat vs) = some vs := by
  subst hn
  induction vs with
  | nil => rfl
  | cons w ws ih =>
    have hm : macConcat (w :: ws) = macPiece w ++ macConcat ws := by
      simp [macConcat]
    rw [List.length_cons, hm,
      parseMacPieces_cons ws.length w (macConcat ws) (h w (by simp)),
      ih (fun v hv => h v (by simp [hv]))]
    rfl

/-- C5 counterexample: the round-trip fails outside the amended conditions:
in byte-count mode '€' is dropped by the ISO-8859-1 encoding, so re-parsing
recovers the encoded value and not the original; and a 1000-character value
overflows the three-digit prefix, so re-parsing fails outright. -/
theorem mac_roundtrip_counterexample :
    (buildMacDanske ["MSG"] (mkForm [("VK_MSG", "€")]) =
        .ok (macConcat [latin1Bytes ("€")]) ∧
      parseMacPieces 1 (macConcat [latin1Bytes ("€")]) ≠
        some [String.data ("€")]) ∧
    (buildMac ["MSG"] (mkForm [("VK_MSG", String.mk bigVal)]) =
        .ok (macConcat [bigVal]) ∧
      parseMacPieces 1 (macConcat [bigVal]) ≠ some [bigVal]) := by
  set_option maxRecDepth 100000 in decide

/-- C5 (amended): for every field list and field-value map with all listed
fields present and every value's length (in the variant's unit) at most
999, `_build_mac` emits, per field in order, the three-digit zero-padded
length immediately followed by the value with no separators, and re-parsing
by length prefixes recovers exactly the emitted values: the original values
in the character-count mode, and the ISO-8859-1-encoded values (equal to
the originals when every character is representable) in the byte-count
mode. -/
theorem buildMac_roundtrip (fields : List String) (data : Form) (vals : List String)
    (hvals : lookupAll fields data = some vals)
    (hlen : ∀ v ∈ vals, v.length ≤ 999) :
    (buildMac fields data = .ok (macConcat (vals.map String.data)) ∧
      parseMacPieces fields.length (macConcat (vals.map String.data)) =
        some (vals.map String.data)) ∧
    (buildMacDanske fields data = .ok (macConcat (vals.map latin1Bytes)) ∧
      parseMacPieces fields.length (macConcat (vals.map latin1Bytes)) =
        some (vals.map latin1Bytes)) := by
  have hflen : fields.length = vals.length := (lookupAll_length hvals).symm
  refine ⟨⟨buildMac_of_lookupAll hvals, ?_⟩, ⟨buildMacDanske_of_lookupAll hvals, ?_⟩⟩
  · refine parseMacPieces_macConcat fields.length (vals.map String.data)
      (by simp [hflen]) ?_
    intro v hv
    rcases List.mem_map.mp hv with ⟨x, hx, rfl⟩
    exact hlen x hx
  · refine parseMacPieces_macConcat fields.length (vals.map latin1Bytes)
      (by simp [hflen]) ?_
    intro v hv
    rcases List.mem_map.mp hv with ⟨x, hx, rfl⟩
    exact le_trans (List.length_filter_le _ _) (hlen x hx)

/-- C5 witness: two concrete fields, one value containing the multi-byte
character 'õ', inside the three-digit bounds. -/
theorem buildMac_roundtrip_witness :
    (buildMac ["SERVICE", "MSG"]
          (mkForm [("VK_SERVICE", "1111"), ("VK_MSG", "õk")]) =
        .ok (macConcat (["1111", "õk"].map String.data)) ∧
      parseMacPieces (["SERVICE", "MSG"] : List String).length
          (macConcat (["1111", "õk"].map String.data)) =
        some (["1111", "õk"].map String.data)) ∧
    (buildMacDanske ["SERVICE", "MSG"]
          (mkForm [("VK_SERVICE", "1111"), ("VK_MSG", "õk")]) =
        .ok (macConcat (["1111", "õk"].map latin1Bytes)) ∧
      parseMacPieces (["SERVICE", "MSG"] : List String).length
          (macConcat (["1111", "õk"].map latin1Bytes)) =
        some (["1111", "õk"].map latin1Bytes)) :=
  buildMac_roundtrip ["SERVICE", "MSG"]
    (mkForm [("VK_SERVICE", "1111"), ("VK_MSG", "õk")]) ["1111", "õk"]
    rfl (by decide)
